import Mathlib

/-!
Shallow embedding of the asynchronous training-job lifecycle of the
ML-platform backend (`backend/tasks.py` and `backend/routes/training.py`).

The embedding models:
  * the job-status records written to the Redis key-value store
    (Python dicts with optional keys become structures with `Option` fields;
    a field equal to `none` means the corresponding key is absent from the dict);
  * the pub/sub events published on the per-job update channel;
  * the side effects (store writes with their TTL, deletes, publishes, queue
    submissions, revocations, model saves) as an explicit trace (`List Effect`);
  * time-varying Redis flags (pause / cancel) as oracle streams consumed one
    poll at a time (`SigEnv` with per-stream cursors in `SigState`), so a flag
    may change value between two polls exactly as in the running system;
  * Redis connection loss on a flag read as a `ReadResult.connErr` outcome
    (the code catches `ConnectionError`/`TimeoutError` on those reads);
  * the numeric outputs of the opaque sklearn collaborators (accuracy, mse, …)
    as rationals supplied by the environment: the code computes them from the
    single fitted model, so they are data, not control flow, for every claim.

Float formatting in human-readable `message` strings and the resource-usage
snapshot attached to progress events are not modelled: no claim mentions them.
`int((epoch+1)/total*50)` is modelled as exact natural division (truncation of
a non-negative quotient).
-/

namespace MLPlatform

/-- Job lifecycle states, as the string values stored in the `status` key of
the persisted record. -/
inductive Status where
  | accepted
  | running
  | paused
  | completed
  | failed
  | cancelled
deriving DecidableEq, Repr

/-- completed / failed / cancelled are the terminal states. -/
def Status.isTerminal : Status → Bool
  | .completed => true
  | .failed => true
  | .cancelled => true
  | _ => false

/-- Result of one Redis `get` on a flag key: either a value (`none` = key
absent) or a connection/timeout error. -/
inductive ReadResult where
  | ok (v : Option String)
  | connErr
deriving DecidableEq, Repr

/-- The model-configuration mapping sent by the client.  Only the keys the
job-lifecycle code itself reads are modelled; the remaining hyperparameters
are consumed opaquely by `create_model` (sklearn constructors, out of scope). -/
structure ModelConfig where
  model_type : Option String := none
  epochs : Option Int := none
deriving DecidableEq, Repr

/-- The per-epoch `metrics` dict.  Classification runs set the accuracy keys,
regression runs set mse/mae/r2; both set loss keys.  Values are the rationals
supplied by the metric environment (the sklearn scores). -/
structure Metrics where
  accuracy : Option Rat := none
  valAccuracy : Option Rat := none
  trainAccuracy : Option Rat := none
  loss : Option Rat := none
  valLoss : Option Rat := none
  trainLoss : Option Rat := none
  mse : Option Rat := none
  mae : Option Rat := none
  r2_score : Option Rat := none
deriving DecidableEq, Repr

/-- One entry of `training_history` (the `history_entry` dict built each
simulated epoch). -/
structure HistoryEntry where
  epoch : Nat
  trainLoss : Rat
  valLoss : Rat
  trainAccuracy : Option Rat
  valAccuracy : Option Rat
  mse : Option Rat
  r2 : Option Rat
deriving DecidableEq, Repr

/-- A persisted job-status record (the JSON dict stored under
`job_status:{job_id}`).  `none` = key absent from the dict. -/
structure Record where
  job_id : Option String := none
  status : Option Status := none
  task_id : Option String := none
  created_at : Option String := none
  dataset_path : Option String := none
  model_config : Option ModelConfig := none
  target_column : Option String := none
  task_type : Option String := none
  progress : Option Int := none
  epoch : Option Nat := none
  total_epochs : Option Int := none
  metrics : Option Metrics := none
  elapsed_time : Option Rat := none
  training_history : Option (List HistoryEntry) := none
  error : Option String := none
  message : Option String := none
  accuracy : Option Rat := none
  precisionScore : Option Rat := none
  recallScore : Option Rat := none
  f1 : Option Rat := none
  classification_report : Option String := none
  training_time : Option Rat := none
  model_path : Option String := none
  completed_at : Option String := none
  mse : Option Rat := none
  mae : Option Rat := none
  r2_score : Option Rat := none
deriving DecidableEq, Repr

/-- A transient event published on the `job_{job_id}` channel.  The
constructor corresponds to the `type` tag of the JSON frame. -/
inductive Event where
  | statusE (s : Status) (progress : Option Int) (msg : String)
  | progressE (progress : Int) (epoch : Option Nat) (totalEpochs : Option Int)
      (metrics : Option Metrics) (hist : Option (List HistoryEntry)) (msg : String)
  | completeE (progress : Int) (results : Record) (msg : String)
  | errorE (err : String) (msg : String)
deriving DecidableEq, Repr

/-- A value stored in the key-value store: a serialized status record or a
plain flag string. -/
inductive StoreVal where
  | recd (r : Record)
  | flag (v : String)
deriving DecidableEq, Repr

/-- One attempted side effect, in program order. -/
inductive Effect where
  | setKey (key : String) (v : StoreVal) (ttl : Option Nat)
  | delKey (key : String)
  | publish (channel : String) (e : Event)
  | enqueue (dataset_path : String) (target_column : String) (job_id : String)
      (task_type : String)
  | revoke (task_id : String)
  | saveModel (path : String)
deriving DecidableEq, Repr

/-- `update_job_status` (tasks.py): `setex("job_status:{job_id}", 3600, json.dumps(data))`
— every Job-Runner status write carries a 1-hour expiry. -/
def update_job_status (job_id : String) (data : Record) : Effect :=
  .setKey ("job_status:" ++ job_id) (.recd data) (some 3600)

/-- `publish_update` (tasks.py): publish on channel `job_{job_id}`. -/
def publish_update (job_id : String) (data : Event) : Effect :=
  .publish ("job_" ++ job_id) data

/-- `calculate_epochs` (tasks.py): a positive caller override wins
(`if user_epochs and user_epochs > 0`, i.e. truthy and positive); otherwise
the count is derived from the dataset size handed in (`< 1000 → 50`,
`< 10000 → 20`, else `10`). -/
def calculate_epochs (dataset_size : Nat) (user_epochs : Option Int) : Int :=
  match user_epochs with
  | some e =>
    if e ≠ 0 ∧ 0 < e then e
    else if dataset_size < 1000 then 50
    else if dataset_size < 10000 then 20
    else 10
  | none =>
    if dataset_size < 1000 then 50
    else if dataset_size < 10000 then 20
    else 10

/-- sklearn `train_test_split` with `test_size=0.2`: the test split gets
`ceil(n / 5)` rows. -/
def testCount (n : Nat) : Nat := (n + 4) / 5

/-- Rows left for the training split: `n - ceil(n / 5)` (= `floor(4n/5)`).
`calculate_epochs` is called on `len(X_train)`, i.e. on this value. -/
def trainCount (n : Nat) : Nat := n - testCount n

/-- Oracle streams for the time-varying Redis flags: `cancelAt k` is the
outcome of the k-th `check_cancellation` call (Redis `job_cancel` flag
combined with Celery revocation, as in the source), `pauseAt k` is the
outcome of the k-th read of the `job_pause:{job_id}` key. -/
structure SigEnv where
  cancelAt : Nat → Bool
  pauseAt : Nat → ReadResult

/-- Cursors into the two oracle streams. -/
structure SigState where
  cIdx : Nat
  pIdx : Nat
deriving DecidableEq, Repr

/-- `check_cancellation` (tasks.py): consume the next cancellation poll.
A Redis connection error on the flag read falls through to the Celery
revocation check, so the combined outcome is a single boolean. -/
def checkCancel (env : SigEnv) (s : SigState) : Bool × SigState :=
  (env.cancelAt s.cIdx, ⟨s.cIdx + 1, s.pIdx⟩)

/-- Outcome of the inner `while True` wait loop of `handle_pause`. -/
inductive WaitOut where
  | cancelled (s : SigState)
  | resumed (s : SigState)
  | fuelOut
deriving Repr

/-- The `while True` wait loop of `handle_pause` (tasks.py): read the pause
flag — on connection error or once the flag is no longer `"true"`, break
(training resumes); otherwise check cancellation (return cancelled if set),
sleep 0.3 s, and poll again.  `fuel` bounds the number of polls modelled. -/
def pauseWait (env : SigEnv) : Nat → SigState → WaitOut
  | 0, _ => .fuelOut
  | fuel + 1, s =>
    let r := env.pauseAt s.pIdx
    let s1 : SigState := ⟨s.cIdx, s.pIdx + 1⟩
    match r with
    | .connErr => .resumed s1
    | .ok v =>
      if v ≠ some "true" then .resumed s1
      else
        let c := checkCancel env s1
        if c.1 then .cancelled c.2
        else pauseWait env fuel c.2

/-- Status record written by `handle_pause` when it observes the pause flag. -/
def pausedRec (job_id : String) : Record :=
  { job_id := some job_id, status := some .paused, message := some "Training paused" }

/-- Status record written by `handle_pause` on resume. -/
def resumedRec (job_id : String) : Record :=
  { job_id := some job_id, status := some .running, message := some "Training resumed" }

/-- Effects of the pause notification (`handle_pause` after seeing the flag). -/
def pauseNotifyTrace (job_id : String) : List Effect :=
  [update_job_status job_id (pausedRec job_id),
   publish_update job_id
     (.statusE .paused none "Training paused. Click Resume to continue.")]

/-- Effects of the resume notification (`handle_pause` after the wait ends). -/
def resumeNotifyTrace (job_id : String) : List Effect :=
  [update_job_status job_id (resumedRec job_id),
   publish_update job_id (.statusE .running none "Training resumed")]

/-- Outcome of `handle_pause`: cancelled during the wait, resumed (or never
paused, with the effects attempted), or wait-fuel exhausted (the job is still
blocked in the pause loop — in the running system it simply keeps polling). -/
inductive PauseOut where
  | cancelled (tr : List Effect) (s : SigState)
  | resumed (tr : List Effect) (s : SigState)
  | fuelOut (tr : List Effect)
deriving Repr

/-- `handle_pause` (tasks.py).  Read the pause flag once: on connection error
(`return False` — do not pause) or flag ≠ `"true"`, return not-cancelled with
no effects.  Otherwise write/publish the paused status, wait in `pauseWait`,
and on resume write/publish the running status.  A cancellation observed
while waiting returns `True` to the caller with no further status write. -/
def handle_pause (env : SigEnv) (job_id : String) (fuel : Nat) (s : SigState) : PauseOut :=
  let first := env.pauseAt s.pIdx
  let s1 : SigState := ⟨s.cIdx, s.pIdx + 1⟩
  match first with
  | .connErr => .resumed [] s1
  | .ok v =>
    if v ≠ some "true" then .resumed [] s1
    else
      match pauseWait env fuel s1 with
      | .fuelOut => .fuelOut (pauseNotifyTrace job_id)
      | .cancelled s2 => .cancelled (pauseNotifyTrace job_id) s2
      | .resumed s2 =>
        .resumed (pauseNotifyTrace job_id ++ resumeNotifyTrace job_id) s2

/-- Observable shape of the dataset behind `dataset_path`, as the opaque
loader (`os.path.exists` + `pd.read_csv` + `dropna`) reports it, plus the
outcomes of the opaque sklearn split/fit calls (which may raise). -/
structure DataEnv where
  pathExists : Bool
  csvRows : Nat
  csvCols : List String
  rowsAfterDropna : Nat
  nonNumericCols : List String
  splitError : Option String
  fitError : Option String

/-- Numeric outputs of the opaque evaluation collaborators.  The source
re-evaluates the one fitted model every simulated epoch, so the per-epoch
scores are single fixed values; only elapsed wall-clock time varies. -/
structure MetricEnv where
  trainAcc : Rat
  valAcc : Rat
  trainMse : Rat
  valMse : Rat
  valMae : Rat
  valR2 : Rat
  finalAcc : Rat
  finalPrec : Rat
  finalRec : Rat
  finalF1 : Rat
  finalReport : String
  finalMse : Rat
  finalMae : Rat
  finalR2 : Rat
  elapsedAt : Nat → Rat
  trainingTime : Rat
  completedAt : String

/-- Full environment of one `train_model_task` execution. -/
structure TaskEnv where
  data : DataEnv
  sig : SigEnv
  pauseFuel : Nat
  m : MetricEnv

/-- The task arguments (`dataset_path, model_config, target_column, job_id,
task_type`). -/
structure RunCfg where
  dataset_path : String
  model_config : ModelConfig
  target_column : String
  job_id : String
  task_type : String

/-- The per-epoch `metrics` dict for a classification run. -/
def clsMetrics (m : MetricEnv) : Metrics :=
  { accuracy := some m.valAcc, valAccuracy := some m.valAcc,
    trainAccuracy := some m.trainAcc, loss := some (1 - m.valAcc),
    valLoss := some (1 - m.valAcc), trainLoss := some (1 - m.trainAcc) }

/-- The per-epoch `metrics` dict for a regression run. -/
def regMetrics (m : MetricEnv) : Metrics :=
  { mse := some m.valMse, mae := some m.valMae, r2_score := some m.valR2,
    loss := some m.valMse, valLoss := some m.valMse, trainLoss := some m.trainMse }

/-- `history_entry` built at 0-based epoch `i` from the current metrics. -/
def mkHistoryEntry (i : Nat) (m : Metrics) : HistoryEntry :=
  { epoch := i + 1, trainLoss := m.trainLoss.getD 0, valLoss := m.valLoss.getD 0,
    trainAccuracy := m.trainAccuracy, valAccuracy := m.valAccuracy,
    mse := m.mse, r2 := m.r2_score }

/-- `30 + int((epoch+1)/total_epochs*50)` at 0-based epoch `i`. -/
def progressAt (total i : Nat) : Int := 30 + ((i + 1) * 50 / total : Nat)

/-- Status record written when cancellation is observed at the top of the
epoch loop. -/
def cancelledRec (job_id : String) : Record :=
  { job_id := some job_id, status := some .cancelled,
    message := some "Training cancelled" }

/-- The dict `{"status": "cancelled", "job_id": job_id}` returned from the
epoch loop on cancellation. -/
def cancelledRetRec (job_id : String) : Record :=
  { status := some .cancelled, job_id := some job_id }

/-- Status record written by the top-level exception handler. -/
def failedRec (job_id error : String) : Record :=
  { job_id := some job_id, status := some .failed, error := some error }

/-- The running-status record persisted at the end of each simulated epoch. -/
def epochRec (job_id : String) (progress : Int) (epoch : Nat) (total : Int)
    (m : Metrics) (elapsed : Rat) (hist : List HistoryEntry) : Record :=
  { job_id := some job_id, status := some .running, progress := some progress,
    epoch := some epoch, total_epochs := some total, metrics := some m,
    elapsed_time := some elapsed, training_history := some hist }

/-- Outcome of the simulated-epoch loop, with the trace of its effects. -/
inductive LoopOut where
  | cancelledRet (tr : List Effect) (s : SigState)
  | pauseCancelled (tr : List Effect) (s : SigState)
  | fuelOut (tr : List Effect)
  | finished (hist : List HistoryEntry) (tr : List Effect) (s : SigState)
deriving Repr

/-- The `for epoch in range(total_epochs)` loop (tasks.py).  Each iteration:
check cancellation (write cancelled status, publish the error event and
return the cancelled dict if set); run `handle_pause` (raise if cancelled
while paused); compute progress and metrics, append the history entry,
publish the progress event and persist the running status.  `remaining`
counts iterations left, `i` is the current 0-based epoch. -/
def epochLoop (cfg : RunCfg) (env : TaskEnv) (total : Nat) :
    Nat → Nat → List HistoryEntry → SigState → LoopOut
  | 0, _, hist, s => .finished hist [] s
  | remaining + 1, i, hist, s =>
    let c := checkCancel env.sig s
    if c.1 then
      .cancelledRet
        [update_job_status cfg.job_id (cancelledRec cfg.job_id),
         publish_update cfg.job_id (.errorE "Cancelled" "Training cancelled by user")]
        c.2
    else
      match handle_pause env.sig cfg.job_id env.pauseFuel c.2 with
      | .fuelOut tr => .fuelOut tr
      | .cancelled tr s2 => .pauseCancelled tr s2
      | .resumed tr s2 =>
        let prog := progressAt total i
        let m := if cfg.task_type = "classification" then clsMetrics env.m
                 else regMetrics env.m
        let hist2 := hist ++ [mkHistoryEntry i m]
        let el := env.m.elapsedAt i
        let effs :=
          [publish_update cfg.job_id
            (.progressE prog (some (i + 1)) (some (total : Int)) (some m) (some hist2)
              ("Epoch " ++ toString (i + 1) ++ "/" ++ toString total)),
           update_job_status cfg.job_id
            (epochRec cfg.job_id prog (i + 1) (total : Int) m el hist2)]
        match epochLoop cfg env total remaining (i + 1) hist2 s2 with
        | .cancelledRet tr2 s3 => .cancelledRet (tr ++ effs ++ tr2) s3
        | .pauseCancelled tr2 s3 => .pauseCancelled (tr ++ effs ++ tr2) s3
        | .fuelOut tr2 => .fuelOut (tr ++ effs ++ tr2)
        | .finished h tr2 s3 => .finished h (tr ++ effs ++ tr2) s3

/-- Outcome of a `train_model_task` execution: normal return of a dict,
exception re-raised by the top-level handler, or still blocked in a pause
wait (modelling fuel exhausted while the flag stays set). -/
inductive TaskOutcome where
  | ret (r : Record)
  | raised (msg : String)
  | blocked
deriving DecidableEq, Repr

/-- Effects of the top-level `except` handler: write the failed status, then
publish the error event (the exception is then re-raised). -/
def failTrace (job_id msg : String) : List Effect :=
  [update_job_status job_id (failedRec job_id msg),
   publish_update job_id (.errorE msg ("Training failed: " ++ msg))]

/-- `total_epochs = calculate_epochs(len(X_train), model_config.get("epochs"))`:
the epoch count the run uses, derived from the post-`dropna` row count via
the 80/20 split. -/
def runTotalEpochs (cfg : RunCfg) (env : TaskEnv) : Int :=
  calculate_epochs (trainCount env.data.rowsAfterDropna) cfg.model_config.epochs

/-- `models/{job_id}_model.pkl`. -/
def modelPath (job_id : String) : String := "models/" ++ job_id ++ "_model.pkl"

/-- The final `result` dict persisted and returned on normal completion.
Note: it carries no `progress` key. -/
def finalResult (cfg : RunCfg) (env : TaskEnv) (hist : List HistoryEntry) : Record :=
  if cfg.task_type = "classification" then
    { status := some .completed, task_type := some "classification",
      accuracy := some env.m.finalAcc, precisionScore := some env.m.finalPrec,
      recallScore := some env.m.finalRec, f1 := some env.m.finalF1,
      classification_report := some env.m.finalReport,
      training_time := some env.m.trainingTime, training_history := some hist,
      model_path := some (modelPath cfg.job_id),
      completed_at := some env.m.completedAt, job_id := some cfg.job_id }
  else
    { status := some .completed, task_type := some "regression",
      mse := some env.m.finalMse, mae := some env.m.finalMae,
      r2_score := some env.m.finalR2,
      training_time := some env.m.trainingTime, training_history := some hist,
      model_path := some (modelPath cfg.job_id),
      completed_at := some env.m.completedAt, job_id := some cfg.job_id }

/-- `train_model_task` (tasks.py): the full Job Runner, returning the task
outcome and the ordered trace of attempted effects.  Mirrors the source:
initial running write/publish; dataset/target/feature validation (failures
raise, landing in the `except` handler which writes `failed` then publishes
the error); 80/20 split; pre-fit cancellation and pause checkpoints (both
raise on cancellation); the opaque `model.fit`; post-fit cancellation
checkpoint; the simulated-epoch loop; final evaluation, model save, final
status write, completion publish. -/
def train_model_task (cfg : RunCfg) (env : TaskEnv) : TaskOutcome × List Effect :=
  let job := cfg.job_id
  let fail := fun (tr : List Effect) (msg : String) =>
    ((.raised msg : TaskOutcome), tr ++ failTrace job msg)
  let tr0 : List Effect :=
    [update_job_status job
      { job_id := some job, status := some .running, progress := some 0,
        message := some "Training started" },
     publish_update job (.statusE .running (some 0) "Training started - Loading dataset...")]
  if ¬ env.data.pathExists then
    fail tr0 ("Dataset not found: " ++ cfg.dataset_path)
  else if env.data.csvRows = 0 ∨ env.data.csvCols = [] then
    fail tr0 "Dataset is empty"
  else if cfg.target_column ∉ env.data.csvCols then
    fail tr0 ("Target column '" ++ cfg.target_column ++ "' not found.")
  else
    let tr1 := tr0 ++ [publish_update job (.progressE 10 none none none none "Dataset loaded")]
    if env.data.nonNumericCols ≠ [] then
      fail tr1 "Non-numeric columns found. Please encode categorical variables."
    else
      match env.data.splitError with
      | some msg => fail tr1 msg
      | none =>
        let tr2 := tr1 ++
          [publish_update job (.progressE 20 none none none none "Data split"),
           publish_update job (.progressE 30 none none none none "Model initialized")]
        let total := runTotalEpochs cfg env
        let c := checkCancel env.sig ⟨0, 0⟩
        if c.1 then fail tr2 "Training cancelled by user"
        else
          match handle_pause env.sig job env.pauseFuel c.2 with
          | .fuelOut trP => (.blocked, tr2 ++ trP)
          | .cancelled trP _ => fail (tr2 ++ trP) "Training cancelled during pause"
          | .resumed trP s2 =>
            match env.data.fitError with
            | some msg => fail (tr2 ++ trP) msg
            | none =>
              let c2 := checkCancel env.sig s2
              if c2.1 then fail (tr2 ++ trP) "Training cancelled by user"
              else
                match epochLoop cfg env total.toNat total.toNat 0 [] c2.2 with
                | .cancelledRet trL _ => (.ret (cancelledRetRec job), tr2 ++ trP ++ trL)
                | .pauseCancelled trL _ =>
                  fail (tr2 ++ trP ++ trL) "Training cancelled during pause"
                | .fuelOut trL => (.blocked, tr2 ++ trP ++ trL)
                | .finished hist trL _ =>
                  let result := finalResult cfg env hist
                  (.ret result,
                   tr2 ++ trP ++ trL ++
                    [Effect.saveModel (modelPath job),
                     update_job_status job result,
                     publish_update job
                       (.completeE 100 result "Training completed!")])

/-- The shared key-value store: entries `(key, value, ttl-in-seconds)`.
`ttl = none` means the key was written with plain `SET` and never expires. -/
abbrev KV := List (String × StoreVal × Option Nat)

/-- Redis `SET`/`SETEX`: overwrite any prior value under the key. -/
def kvSet (kv : KV) (k : String) (v : StoreVal) (ttl : Option Nat) : KV :=
  (k, v, ttl) :: kv.filter (fun e => e.1 ≠ k)

/-- Redis `GET`. -/
def kvGet (kv : KV) (k : String) : Option StoreVal :=
  (kv.find? (fun e => e.1 = k)).map (fun e => e.2.1)

/-- Redis `DEL`. -/
def kvDel (kv : KV) (k : String) : KV :=
  kv.filter (fun e => e.1 ≠ k)

/-- `update_job_status` acting on the store model (the `setex` with the
1-hour TTL actually landing in Redis). -/
def update_job_status_kv (kv : KV) (job_id : String) (data : Record) : KV :=
  kvSet kv ("job_status:" ++ job_id) (.recd data) (some 3600)

/-- `read_status`: the `GET job_status:{job_id}` performed by the
`GET /jobs/{job_id}` route before `json.loads`. -/
def read_status (kv : KV) (job_id : String) : Option StoreVal :=
  kvGet kv ("job_status:" ++ job_id)

/-- Outcome of the single Redis operation attempted inside `publish_update`'s
`try` block, matching the source's `except` arms. -/
inductive OpOutcome where
  | ok
  | connErr
  | redisErr
  | otherErr
deriving DecidableEq, Repr

/-- `publish_update` (tasks.py) as a fallible call: every failure arm is
caught and only logged (`.ok logs`), so the function never raises — the
`Except.error` constructor is unreachable by construction, which is exactly
the fire-and-forget contract. -/
def publish_update_run (job_id : String) (_data : Event) (o : OpOutcome) :
    Except String (List String) :=
  match o with
  | .ok => .ok []
  | .connErr => .ok ["Redis connection error publishing for " ++ job_id]
  | .redisErr => .ok ["Redis error publishing for " ++ job_id]
  | .otherErr => .ok ["Error publishing update for " ++ job_id]

/-- Environment of one Job Control API call. -/
structure ApiEnv where
  redisUp : Bool
  fileExists : Bool
  queueOk : Bool
  storeWriteOk : Bool
  task_id : String
  nowMillis : Nat
  nowIso : String

/-- An HTTP error response (`HTTPException`). -/
structure HttpErr where
  code : Nat
  detail : String
deriving DecidableEq, Repr

/-- Body of the `POST /train` success response. -/
structure TrainOk where
  job_id : String
  status : Status
  task_id : String
  message : String
deriving DecidableEq, Repr

/-- The `POST /train` request body. -/
structure TrainRequest where
  dataset_path : String
  model_config : ModelConfig
  target_column : String
  task_type : String
deriving DecidableEq, Repr

/-- `train_model` (routes/training.py, `POST /train`): 503 if Redis is down;
404 if the dataset file does not exist; generate the job id; submit the task
(503 if the queue refuses); write the initial `accepted` record with plain
`SET` (write failures only logged); return 200.  Returns the response, the
resulting store, and the effect trace. -/
def train_model (env : ApiEnv) (req : TrainRequest) (kv : KV) :
    Except HttpErr TrainOk × KV × List Effect :=
  if ¬ env.redisUp then
    (.error ⟨503, "Redis is not connected. Please ensure Redis server is running."⟩, kv, [])
  else if ¬ env.fileExists then
    (.error ⟨404, "Dataset file not found: " ++ req.dataset_path⟩, kv, [])
  else
    let job := "job_" ++ toString env.nowMillis
    if ¬ env.queueOk then
      (.error ⟨503, "Failed to create Celery task. Ensure Celery worker is running."⟩, kv,
       [])
    else
      let acceptedRec : Record :=
        { job_id := some job, status := some .accepted, task_id := some env.task_id,
          created_at := some env.nowIso, dataset_path := some req.dataset_path,
          model_config := some req.model_config, target_column := some req.target_column,
          task_type := some req.task_type }
      let enqEff := Effect.enqueue req.dataset_path req.target_column job req.task_type
      if env.storeWriteOk then
        (.ok ⟨job, .accepted, env.task_id, "Training job created successfully"⟩,
         kvSet kv ("job_status:" ++ job) (.recd acceptedRec) none,
         [enqEff, Effect.setKey ("job_status:" ++ job) (.recd acceptedRec) none])
      else
        (.ok ⟨job, .accepted, env.task_id, "Training job created successfully"⟩, kv,
         [enqEff])

/-- `job_status` (routes/training.py, `GET /jobs/{job_id}`). -/
def job_status (env : ApiEnv) (job_id : String) (kv : KV) : Except HttpErr Record :=
  if ¬ env.redisUp then .error ⟨503, "Redis is not connected"⟩
  else
    match kvGet kv ("job_status:" ++ job_id) with
    | none => .error ⟨404, "Job not found: " ++ job_id⟩
    | some (.recd r) => .ok r
    | some (.flag _) => .error ⟨500, "Error getting job status"⟩

/-- `pause_job` (routes/training.py, `POST /jobs/{job_id}/pause`): 404 if no
record; 400 unless the stored status is running or paused; otherwise set the
pause flag, overwrite the record with status `paused` (plain `SET`), publish
the paused event. -/
def pause_job (env : ApiEnv) (job_id : String) (kv : KV) :
    Except HttpErr (String × Status) × KV × List Effect :=
  if ¬ env.redisUp then (.error ⟨503, "Redis is not connected"⟩, kv, [])
  else
    match kvGet kv ("job_status:" ++ job_id) with
    | none => (.error ⟨404, "Job not found: " ++ job_id⟩, kv, [])
    | some (.flag _) => (.error ⟨500, "Error pausing job"⟩, kv, [])
    | some (.recd r) =>
      if ¬ (r.status = some .running ∨ r.status = some .paused) then
        (.error ⟨400, "Cannot pause job"⟩, kv, [])
      else
        let r2 := { r with status := some .paused,
                           message := some "Training paused by user" }
        let kv1 := kvSet kv ("job_pause:" ++ job_id) (.flag "true") none
        let kv2 := kvSet kv1 ("job_status:" ++ job_id) (.recd r2) none
        ((.ok (job_id, .paused)), kv2,
         [Effect.setKey ("job_pause:" ++ job_id) (.flag "true") none,
          Effect.setKey ("job_status:" ++ job_id) (.recd r2) none,
          Effect.publish ("job_" ++ job_id)
            (.statusE .paused none "Training paused. Click Resume to continue.")])

/-- `resume_job` (routes/training.py, `POST /jobs/{job_id}/resume`): 404 if
no record; 400 unless the stored status is paused or running; otherwise
delete the pause flag, overwrite the record with status `running` (plain
`SET`), publish the running event. -/
def resume_job (env : ApiEnv) (job_id : String) (kv : KV) :
    Except HttpErr (String × Status) × KV × List Effect :=
  if ¬ env.redisUp then (.error ⟨503, "Redis is not connected"⟩, kv, [])
  else
    match kvGet kv ("job_status:" ++ job_id) with
    | none => (.error ⟨404, "Job not found: " ++ job_id⟩, kv, [])
    | some (.flag _) => (.error ⟨500, "Error resuming job"⟩, kv, [])
    | some (.recd r) =>
      if ¬ (r.status = some .paused ∨ r.status = some .running) then
        (.error ⟨400, "Cannot resume job"⟩, kv, [])
      else
        let r2 := { r with status := some .running,
                           message := some "Training resumed" }
        let kv1 := kvDel kv ("job_pause:" ++ job_id)
        let kv2 := kvSet kv1 ("job_status:" ++ job_id) (.recd r2) none
        ((.ok (job_id, .running)), kv2,
         [Effect.delKey ("job_pause:" ++ job_id),
          Effect.setKey ("job_status:" ++ job_id) (.recd r2) none,
          Effect.publish ("job_" ++ job_id)
            (.statusE .running none "Training resumed")])

/-- `stop_job` (routes/training.py, `POST /jobs/{job_id}/stop`): 404 if no
record; otherwise — with no check of the current status — revoke the Celery
task when a truthy `task_id` is present, overwrite the record with status
`cancelled` (plain `SET`), and delete the pause flag. -/
def stop_job (env : ApiEnv) (job_id : String) (kv : KV) :
    Except HttpErr (String × Status) × KV × List Effect :=
  if ¬ env.redisUp then (.error ⟨503, "Redis is not connected"⟩, kv, [])
  else
    match kvGet kv ("job_status:" ++ job_id) with
    | none => (.error ⟨404, "Job not found: " ++ job_id⟩, kv, [])
    | some (.flag _) => (.error ⟨500, "Error stopping job"⟩, kv, [])
    | some (.recd r) =>
      let revokeEffs :=
        match r.task_id with
        | some t => if t ≠ "" then [Effect.revoke t] else []
        | none => []
      let r2 := { r with status := some .cancelled,
                         message := some "Training cancelled by user" }
      let kv1 := kvSet kv ("job_status:" ++ job_id) (.recd r2) none
      let kv2 := kvDel kv1 ("job_pause:" ++ job_id)
      ((.ok (job_id, .cancelled)), kv2,
       revokeEffs ++
        [Effect.setKey ("job_status:" ++ job_id) (.recd r2) none,
         Effect.delKey ("job_pause:" ++ job_id)])

/-- Status carried by the last write to `job_status:{job_id}` in a trace —
the persisted status an observer sees once the run is over. -/
def lastWrittenStatus (job_id : String) (tr : List Effect) : Option Status :=
  tr.reverse.findSome? fun e =>
    match e with
    | .setKey k (.recd r) _ => if k = "job_status:" ++ job_id then r.status else none
    | _ => none

/-- TTLs of all job-status-record writes in a trace (the store writes whose
value is a serialized record — flag writes are not status records). -/
def statusWriteTtls (tr : List Effect) : List (Option Nat) :=
  tr.filterMap fun e =>
    match e with
    | .setKey _ (.recd _) ttl => some ttl
    | _ => none

/-- Status stored under `job_status:{job_id}` in a store snapshot. -/
def statusInKv (kv : KV) (job_id : String) : Option Status :=
  match kvGet kv ("job_status:" ++ job_id) with
  | some (.recd r) => r.status
  | _ => none

/-- The record a normal task return carries, if any. -/
def finalRec? : TaskOutcome → Option Record
  | .ret r => some r
  | _ => none

/-- Is this effect a terminal publish (a `complete` or `error` frame)?  If
so, return the event. -/
def isTermPub : Effect → Option Event
  | .publish _ (.completeE p r m) => some (.completeE p r m)
  | .publish _ (.errorE e m) => some (.errorE e m)
  | _ => none

/-- Does this effect write the terminal status record corresponding to the
given terminal event?  A `complete` frame corresponds to a `completed`
write, an `error` frame to a `failed` or `cancelled` write. -/
def isTermWriteFor (ev : Event) (e : Effect) : Bool :=
  match ev, e with
  | .completeE _ _ _, .setKey _ (.recd r) _ => r.status == some .completed
  | .errorE _ _, .setKey _ (.recd r) _ =>
    r.status == some .failed || r.status == some .cancelled
  | _, _ => false

/-- Walk a trace left to right, remembering the effects already seen; fail if
a terminal publish appears before a matching terminal status write. -/
def wbpAux (seen : List Effect) : List Effect → Bool
  | [] => true
  | e :: rest =>
    (match isTermPub e with
     | some ev => seen.any (fun w => isTermWriteFor ev w)
     | none => true) && wbpAux (e :: seen) rest

/-- Every terminal (`complete`/`error`) publish in the trace is preceded by
a store write of the corresponding terminal status. -/
def wbpCheck (tr : List Effect) : Bool := wbpAux [] tr

/-- Fixed sample outputs for the opaque sklearn evaluation calls. -/
def sampleMetricEnv : MetricEnv :=
  { trainAcc := 97/100, valAcc := 9/10, trainMse := 1/10, valMse := 1/5,
    valMae := 3/10, valR2 := 4/5, finalAcc := 9/10, finalPrec := 88/100,
    finalRec := 9/10, finalF1 := 89/100, finalReport := "report",
    finalMse := 1/5, finalMae := 3/10, finalR2 := 4/5,
    elapsedAt := fun i => (i : Rat), trainingTime := 5,
    completedAt := "2026-01-01T00:00:00" }

/-- A clean 100-row numeric dataset with target column `y`. -/
def okData : DataEnv :=
  { pathExists := true, csvRows := 100, csvCols := ["x1", "x2", "y"],
    rowsAfterDropna := 100, nonNumericCols := [], splitError := none,
    fitError := none }

/-- No cancel signal, no pause flag, ever. -/
def quietSig : SigEnv := ⟨fun _ => false, fun _ => .ok none⟩

/-- Cancel flag set from the start; no pause flag. -/
def cancelSig : SigEnv := ⟨fun _ => true, fun _ => .ok none⟩

/-- A classification job with a caller override of 2 epochs (kept tiny so
concrete runs evaluate cheaply). -/
def sampleCfg : RunCfg :=
  { dataset_path := "uploads/data.csv",
    model_config := { model_type := some "random_forest", epochs := some 2 },
    target_column := "y", job_id := "j1", task_type := "classification" }

/-- Environment in which `sampleCfg` runs to completion. -/
def quietEnv : TaskEnv := ⟨okData, quietSig, 5, sampleMetricEnv⟩

/-- Environment in which the cancel flag is already set at the pre-fit
checkpoint. -/
def cancelEnv : TaskEnv := ⟨okData, cancelSig, 5, sampleMetricEnv⟩

/-- The effect trace of a `handle_pause` outcome. -/
def PauseOut.trace : PauseOut → List Effect
  | .cancelled tr _ => tr
  | .resumed tr _ => tr
  | .fuelOut tr => tr

/-- The effect trace of an epoch-loop outcome. -/
def LoopOut.trace : LoopOut → List Effect
  | .cancelledRet tr _ => tr
  | .pauseCancelled tr _ => tr
  | .fuelOut tr => tr
  | .finished _ tr _ => tr

/-- A trace passes the write-before-publish check whatever effects are
already in the seen-set. -/
def WbpAll (l : List Effect) : Prop := ∀ seen, wbpAux seen l = true

/-- The record returned by the concrete completed sample run. -/
def c3res : Record :=
  match (train_model_task sampleCfg quietEnv).1 with
  | .ret r => r
  | _ => {}

/-- The history list of the concrete completed sample run. -/
def c3hist : List HistoryEntry := c3res.training_history.getD []

/-- A job with no epoch override on a 1000-row dataset. -/
def c6Cfg : RunCfg := { sampleCfg with model_config := {} }

/-- Environment with exactly 1000 post-`dropna` rows. -/
def c6Env : TaskEnv :=
  { quietEnv with data := { okData with csvRows := 1000, rowsAfterDropna := 1000 } }

/-- API environment with Redis up but the dataset file missing. -/
def c7Env : ApiEnv :=
  { redisUp := true, fileExists := false, queueOk := true, storeWriteOk := true,
    task_id := "t7", nowMillis := 1, nowIso := "2026-01-01T00:00:00" }

/-- A create_job request pointing at a missing file. -/
def c7Req : TrainRequest :=
  { dataset_path := "missing.csv", model_config := {}, target_column := "y",
    task_type := "classification" }

/-- API environment with everything up. -/
def apiUp : ApiEnv :=
  { redisUp := true, fileExists := true, queueOk := true, storeWriteOk := true,
    task_id := "t1", nowMillis := 1700000000000, nowIso := "2026-01-01T00:00:00" }

/-- A well-formed create_job request. -/
def c4Req : TrainRequest :=
  { dataset_path := "uploads/d.csv", model_config := {}, target_column := "y",
    task_type := "classification" }

/-- A persisted record already in the terminal state `completed`. -/
def c2Rec : Record :=
  { job_id := some "j2", status := some .completed, task_id := some "t2" }

/-- A store holding the completed record for job `j2`. -/
def c2Kv : KV := [("job_status:j2", .recd c2Rec, none)]

/-- Pause-flag stream for the C10 witness: flag set on the first two reads,
then the store becomes unreachable. -/
def c10Sig : SigEnv :=
  ⟨fun _ => false,
   fun n => if n = 0 then .ok (some "true")
     else if n = 1 then .ok (some "true")
     else .connErr⟩

/-- Pause-flag stream whose very first read hits a connection error. -/
def c10SigA : SigEnv := ⟨fun _ => false, fun _ => .connErr⟩

lemma kvGet_kvSet_same (kv : KV) (k : String) (v : StoreVal) (ttl : Option Nat) :
    kvGet (kvSet kv k v ttl) k = some v := by
  unfold kvGet kvSet
  rw [List.find?_cons_of_pos _ (by simp)]
  rfl

lemma kvGet_filter_ne (k k' : String) (h : k' ≠ k) :
    ∀ kv : KV, kvGet (kv.filter (fun e => e.1 ≠ k)) k' = kvGet kv k'
  | [] => rfl
  | e :: rest => by
    by_cases he' : e.1 = k'
    · have hk : e.1 ≠ k := by
        rw [he']
        exact h
      rw [List.filter_cons_of_pos (by simpa using hk)]
      unfold kvGet
      rw [List.find?_cons_of_pos _ (by simpa using he'),
        List.find?_cons_of_pos _ (by simpa using he')]
    · by_cases he : e.1 = k
      · rw [List.filter_cons_of_neg (by simpa using he)]
        have h2 := kvGet_filter_ne k k' h rest
        unfold kvGet at h2 ⊢
        rw [List.find?_cons_of_neg _ (by simpa using he')]
        exact h2
      · rw [List.filter_cons_of_pos (by simpa using he)]
        have h2 := kvGet_filter_ne k k' h rest
        unfold kvGet at h2 ⊢
        rw [List.find?_cons_of_neg _ (by simpa using he'),
          List.find?_cons_of_neg _ (by simpa using he')]
        exact h2

lemma kvGet_kvSet_ne (kv : KV) (k k' : String) (v : StoreVal) (ttl : Option Nat)
    (h : k' ≠ k) : kvGet (kvSet kv k v ttl) k' = kvGet kv k' := by
  unfold kvSet kvGet
  rw [List.find?_cons_of_neg _ (by simpa using fun hh : k = k' => h hh.symm)]
  exact kvGet_filter_ne k k' h kv

lemma kvGet_kvDel_ne (kv : KV) (k k' : String) (h : k' ≠ k) :
    kvGet (kvDel kv k) k' = kvGet kv k' := kvGet_filter_ne k k' h kv

lemma pause_key_ne_status_key (j : String) :
    ("job_pause:" ++ j) ≠ ("job_status:" ++ j) := by
  intro h
  have h2 := congrArg String.data h
  simp [String.data_append] at h2

/-- C9: a status record written by `write_status` (`update_job_status`'s
`SETEX` under `job_status:{job_id}`) and immediately read back by
`read_status` (the `GET` of the status route) with no intervening write is
returned exactly as written.  The store holds the serialized bytes and
`json.dumps` is deterministic, so record equality is byte-for-byte equality
of the stored value. -/
theorem c9_write_read_roundtrip (kv : KV) (job_id : String) (data : Record) :
    read_status (update_job_status_kv kv job_id data) job_id =
      some (.recd data) := by
  simp [read_status, update_job_status_kv, kvGet_kvSet_same]

/-- C8: `publish_update` is fire-and-forget — for every job id, event and
store-failure outcome it returns normally (all exception arms are caught and
only logged), so a publish failure can never propagate into the training
loop. -/
theorem c8_publish_never_raises (job_id : String) (data : Event) (o : OpOutcome) :
    (publish_update_run job_id data o).isOk = true := by
  cases o <;> rfl

/-- C1 (failing run, documenting the code bug): with the cancel flag already
set when the Job Runner reaches the pre-fit checkpoint, the run raises
`"Training cancelled by user"` and the last persisted status record has
status `failed` — not `cancelled` — because the pre-fit checkpoint raises a
generic `Exception` that the top-level handler records as a failure. -/
theorem c1_cancel_prefit_persists_failed :
    (train_model_task sampleCfg cancelEnv).1 = .raised "Training cancelled by user" ∧
    lastWrittenStatus "j1" (train_model_task sampleCfg cancelEnv).2 = some .failed := by
  constructor <;> rfl

lemma finalResult_status (cfg : RunCfg) (env : TaskEnv) (hist : List HistoryEntry) :
    (finalResult cfg env hist).status = some .completed := by
  unfold finalResult
  split <;> rfl

lemma finalResult_progress (cfg : RunCfg) (env : TaskEnv) (hist : List HistoryEntry) :
    (finalResult cfg env hist).progress = none := by
  unfold finalResult
  split <;> rfl

lemma finalResult_history (cfg : RunCfg) (env : TaskEnv) (hist : List HistoryEntry) :
    (finalResult cfg env hist).training_history = some hist := by
  unfold finalResult
  split <;> rfl

lemma epochLoop_finished_hist (cfg : RunCfg) (env : TaskEnv) (total : Nat) :
    ∀ (rem i : Nat) (hist : List HistoryEntry) (s : SigState)
      (h : List HistoryEntry) (tr : List Effect) (s' : SigState),
      epochLoop cfg env total rem i hist s = .finished h tr s' →
      h.map HistoryEntry.epoch = hist.map HistoryEntry.epoch ++ List.range' (i + 1) rem
  | 0, i, hist, s, h, tr, s', heq => by
    unfold epochLoop at heq
    cases heq
    simp
  | rem + 1, i, hist, s, h, tr, s', heq => by
    unfold epochLoop at heq
    dsimp only at heq
    split at heq
    · cases heq
    · split at heq
      · cases heq
      · cases heq
      · rename_i trP s2 hhp
        split at heq
        · cases heq
        · cases heq
        · cases heq
        · rename_i h2 tr2 s3 hrec
          cases heq
          have ih := epochLoop_finished_hist cfg env total rem (i + 1) _ _ _ _ _ hrec
          rw [ih]
          simp [mkHistoryEntry, List.range'_succ]

lemma train_completed_shape (cfg : RunCfg) (env : TaskEnv) (r : Record)
    (h : (train_model_task cfg env).1 = .ret r)
    (hs : r.status = some .completed) :
    r.progress = none ∧
    ∃ hist, r.training_history = some hist ∧
      hist.map HistoryEntry.epoch = List.range' 1 (runTotalEpochs cfg env).toNat := by
  unfold train_model_task at h
  dsimp only at h
  split at h
  · cases h
  · split at h
    · cases h
    · split at h
      · cases h
      · split at h
        · cases h
        · split at h
          · cases h
          · split at h
            · cases h
            · split at h
              · cases h
              · cases h
              · split at h
                · cases h
                · split at h
                  · cases h
                  · split at h
                    · cases h
                      rw [show (cancelledRetRec cfg.job_id).status =
                        some Status.cancelled from rfl] at hs
                      cases hs
                    · cases h
                    · cases h
                    · rename_i hist trL s3 hloop
                      cases h
                      refine ⟨finalResult_progress cfg env hist, hist,
                        finalResult_history cfg env hist, ?_⟩
                      have := epochLoop_finished_hist cfg env _ _ _ _ _ _ _ _ hloop
                      simpa using this

lemma calculate_epochs_pos (n : Nat) (o : Option Int) : 0 < calculate_epochs n o := by
  unfold calculate_epochs
  split
  all_goals repeat' split
  all_goals omega

lemma calculate_epochs_none_of_lt (n : Nat) (h : n < 1000) :
    calculate_epochs n none = 50 := by
  simp only [calculate_epochs]
  rw [if_pos h]

lemma calculate_epochs_some_pos (n : Nat) (e : Int) (h : 0 < e) :
    calculate_epochs n (some e) = e := by
  simp only [calculate_epochs]
  rw [if_pos ⟨by omega, h⟩]

/-- C3 (amended): for every run reaching the `completed` terminal state, the
final persisted record's `training_history` is non-empty and strictly
increasing in epoch index; but the record carries no `progress` key at all
(`progress: 100` appears only on the published `complete` event), so the
claimed `progress == 100` does not hold of the persisted record. -/
theorem c3_completed_record_shape (cfg : RunCfg) (env : TaskEnv) (r : Record)
    (h : (train_model_task cfg env).1 = .ret r)
    (hs : r.status = some .completed) :
    r.progress = none ∧
    ∃ hist, r.training_history = some hist ∧ hist ≠ [] ∧
      hist.Pairwise (fun a b => a.epoch < b.epoch) := by
  obtain ⟨hp, hist, hh, hmap⟩ := train_completed_shape cfg env r h hs
  refine ⟨hp, hist, hh, ?_, ?_⟩
  · intro hnil
    rw [hnil] at hmap
    have hlen := congrArg List.length hmap
    have hpos := calculate_epochs_pos (trainCount env.data.rowsAfterDropna)
      cfg.model_config.epochs
    unfold runTotalEpochs at hlen
    simp only [List.map_nil, List.length_nil, List.length_range'] at hlen
    omega
  · have hpw : (hist.map HistoryEntry.epoch).Pairwise (· < ·) := by
      rw [hmap]
      exact List.pairwise_lt_range' ..
    exact (List.pairwise_map.mp hpw)

/-- C3 is false as literally stated: this concrete run reaches `completed`
but its final persisted record has no `progress` key (`progress = none`), so
`progress == 100` fails. -/
theorem c3_counterexample :
    (train_model_task sampleCfg quietEnv).1 = .ret c3res ∧
    c3res.status = some .completed ∧
    c3res.progress = none ∧ c3res.progress ≠ some 100 := by
  refine ⟨rfl, rfl, rfl, ?_⟩
  rw [show c3res.progress = none from rfl]
  simp

/-- Witness for `c3_completed_record_shape` at the concrete completed run. -/
theorem c3_completed_record_shape_witness :
    (train_model_task sampleCfg quietEnv).1 = .ret c3res ∧
    c3res.status = some .completed ∧
    (c3res.progress = none ∧ ∃ hist, c3res.training_history = some hist ∧
      hist ≠ [] ∧ hist.Pairwise (fun a b => a.epoch < b.epoch)) :=
  ⟨rfl, rfl, c3_completed_record_shape sampleCfg quietEnv c3res rfl rfl⟩

/-- C6: when the caller does not override the epoch count, a dataset of at
most 1000 rows yields 50 simulated epochs (the 80/20 split leaves at most
800 training rows, and `calculate_epochs` maps anything below 1000 to 50);
a positive caller override is used instead; and on completion
`training_history` has exactly that many entries. -/
theorem c6_epoch_count (cfg : RunCfg) (env : TaskEnv) :
    (env.data.rowsAfterDropna ≤ 1000 → cfg.model_config.epochs = none →
       runTotalEpochs cfg env = 50) ∧
    (∀ e : Int, cfg.model_config.epochs = some e → 0 < e →
       runTotalEpochs cfg env = e) ∧
    (∀ r hist, (train_model_task cfg env).1 = .ret r →
       r.status = some .completed → r.training_history = some hist →
       hist.length = (runTotalEpochs cfg env).toNat) := by
  refine ⟨?_, ?_, ?_⟩
  · intro hn ho
    unfold runTotalEpochs
    rw [ho]
    exact calculate_epochs_none_of_lt _ (by unfold trainCount testCount; omega)
  · intro e he hpos
    unfold runTotalEpochs
    rw [he]
    exact calculate_epochs_some_pos _ e hpos
  · intro r hist h hs hh
    obtain ⟨_, hist2, hh2, hmap⟩ := train_completed_shape cfg env r h hs
    rw [hh] at hh2
    cases hh2
    have hlen := congrArg List.length hmap
    simpa using hlen

/-- Witness for `c6_epoch_count` at concrete inputs: 1000 rows with no
override give 50 epochs; the override 2 is used in the sample run; and the
sample run's completed history has exactly that many entries. -/
theorem c6_epoch_count_witness :
    runTotalEpochs c6Cfg c6Env = 50 ∧ runTotalEpochs sampleCfg quietEnv = 2 ∧
    c3hist.length = (runTotalEpochs sampleCfg quietEnv).toNat := by
  refine ⟨(c6_epoch_count c6Cfg c6Env).1 (by decide) rfl,
    (c6_epoch_count sampleCfg quietEnv).2.1 2 rfl (by decide),
    (c6_epoch_count sampleCfg quietEnv).2.2 c3res c3hist rfl rfl rfl⟩

/-- C7: a create_job request whose dataset reference does not resolve to an
existing file is rejected synchronously with the 404 error; nothing is
enqueued, no status record (in particular none with status `accepted`) is
written, and the store is unchanged. -/
theorem c7_missing_dataset_rejected (env : ApiEnv) (req : TrainRequest) (kv : KV)
    (hup : env.redisUp = true) (hfile : env.fileExists = false) :
    (train_model env req kv).1 =
      .error ⟨404, "Dataset file not found: " ++ req.dataset_path⟩ ∧
    (train_model env req kv).2.2 = [] ∧
    (train_model env req kv).2.1 = kv := by
  unfold train_model
  rw [hup, hfile]
  simp

/-- Witness for `c7_missing_dataset_rejected` at a concrete request. -/
theorem c7_missing_dataset_rejected_witness :
    (train_model c7Env c7Req []).1 =
      .error ⟨404, "Dataset file not found: " ++ c7Req.dataset_path⟩ ∧
    (train_model c7Env c7Req []).2.2 = [] ∧
    (train_model c7Env c7Req []).2.1 = [] :=
  c7_missing_dataset_rejected c7Env c7Req [] rfl rfl

/-- C4 is false as stated: the Job Control API's initial `accepted` status
write uses plain `SET` with no expiry — its TTL is `none`, not one hour —
so not every status-record write carries the 1-hour expiry. -/
theorem c4_counterexample :
    statusWriteTtls (train_model apiUp c4Req []).2.2 = [none] ∧
    (none : Option Nat) ≠ some 3600 := by
  refine ⟨rfl, ?_⟩
  simp

/-- C4 (amended): every Job-Runner status write (`update_job_status`) uses
`SETEX` with the 1-hour TTL, but the Job Control API's status-record writes
(the initial `accepted` record and the pause/resume/stop overwrites) use
plain `SET` with no expiry, so those records do not expire. -/
theorem c4_ttl_split (job_id : String) (data : Record) (env : ApiEnv)
    (req : TrainRequest) (kv : KV) :
    update_job_status job_id data =
      .setKey ("job_status:" ++ job_id) (.recd data) (some 3600) ∧
    ((statusWriteTtls (train_model env req kv).2.2).all (· == none) = true) ∧
    ((statusWriteTtls (pause_job env job_id kv).2.2).all (· == none) = true) ∧
    ((statusWriteTtls (resume_job env job_id kv).2.2).all (· == none) = true) ∧
    ((statusWriteTtls (stop_job env job_id kv).2.2).all (· == none) = true) := by
  refine ⟨rfl, ?_, ?_, ?_, ?_⟩
  · unfold train_model
    split
    · rfl
    · split
      · rfl
      · split
        · rfl
        · split
          · rfl
          · rfl
  · unfold pause_job
    split
    · rfl
    · split
      · rfl
      · rfl
      · split
        · rfl
        · rfl
  · unfold resume_job
    split
    · rfl
    · split
      · rfl
      · rfl
      · split
        · rfl
        · rfl
  · unfold stop_job
    split
    · rfl
    · split
      · rfl
      · rfl
      · split
        · split
          · rfl
          · rfl
        · rfl

/-- C2 is false as stated: `stop_job` performs no terminal-status check, so
calling the stop endpoint on a job whose persisted record already holds the
terminal status `completed` overwrites it with `cancelled` — the job is
observed in two different terminal states. -/
theorem c2_counterexample :
    c2Rec.status = some .completed ∧ Status.isTerminal .completed = true ∧
    statusInKv c2Kv "j2" = some .completed ∧
    (stop_job apiUp "j2" c2Kv).1 = .ok ("j2", .cancelled) ∧
    statusInKv (stop_job apiUp "j2" c2Kv).2.1 "j2" = some .cancelled :=
  ⟨rfl, rfl, rfl, rfl, rfl⟩

/-- C2 (amended): terminal statuses are absorbing for the Job Runner and for
the pause/resume endpoints — on a record whose status is terminal those
endpoints return 400 and leave the store unchanged — but the stop endpoint
checks nothing and overwrites whatever record it finds, terminal or not,
with status `cancelled`. -/
theorem c2_terminal_absorbing_except_stop (env : ApiEnv) (job_id : String)
    (kv : KV) (r : Record) (hup : env.redisUp = true)
    (hget : kvGet kv ("job_status:" ++ job_id) = some (.recd r)) :
    (statusInKv (stop_job env job_id kv).2.1 job_id = some .cancelled) ∧
    (∀ st, r.status = some st → st.isTerminal = true →
      (pause_job env job_id kv).1 = .error ⟨400, "Cannot pause job"⟩ ∧
      (pause_job env job_id kv).2.1 = kv ∧
      (resume_job env job_id kv).1 = .error ⟨400, "Cannot resume job"⟩ ∧
      (resume_job env job_id kv).2.1 = kv) := by
  constructor
  · unfold stop_job
    rw [hup]
    simp only [not_true_eq_false, if_false, hget]
    unfold statusInKv
    rw [kvGet_kvDel_ne _ _ _ (Ne.symm (pause_key_ne_status_key job_id)),
      kvGet_kvSet_same]
  · intro st hst hterm
    have hnot : ¬ (r.status = some .running ∨ r.status = some .paused) := by
      rw [hst]
      cases st <;> simp_all [Status.isTerminal]
    have hnot2 : ¬ (r.status = some .paused ∨ r.status = some .running) := by
      rw [hst]
      cases st <;> simp_all [Status.isTerminal]
    refine ⟨?_, ?_, ?_, ?_⟩ <;>
      first
      | (unfold pause_job
         rw [hup]
         simp only [not_true_eq_false, if_false, hget]
         rw [if_pos hnot])
      | (unfold resume_job
         rw [hup]
         simp only [not_true_eq_false, if_false, hget]
         rw [if_pos hnot2])

/-- Witness for `c2_terminal_absorbing_except_stop` at the concrete
completed record. -/
theorem c2_terminal_absorbing_except_stop_witness :
    (statusInKv (stop_job apiUp "j2" c2Kv).2.1 "j2" = some .cancelled) ∧
    ((pause_job apiUp "j2" c2Kv).1 = .error ⟨400, "Cannot pause job"⟩ ∧
     (pause_job apiUp "j2" c2Kv).2.1 = c2Kv ∧
     (resume_job apiUp "j2" c2Kv).1 = .error ⟨400, "Cannot resume job"⟩ ∧
     (resume_job apiUp "j2" c2Kv).2.1 = c2Kv) := by
  have h := c2_terminal_absorbing_except_stop apiUp "j2" c2Kv c2Rec rfl rfl
  exact ⟨h.1, h.2 .completed rfl rfl⟩

lemma wbpAll_nil : WbpAll [] := fun _ => rfl

lemma wbpAux_append (seen : List Effect) (l₁ l₂ : List Effect) :
    wbpAux seen (l₁ ++ l₂) =
      (wbpAux seen l₁ && wbpAux (l₁.reverse ++ seen) l₂) := by
  induction l₁ generalizing seen with
  | nil => simp [wbpAux]
  | cons e rest ih =>
    simp only [List.cons_append, wbpAux, List.append_eq]
    rw [ih (e :: seen), Bool.and_assoc, List.reverse_cons, List.append_assoc,
      List.singleton_append]

lemma wbpAll_append {l₁ l₂ : List Effect} (h₁ : WbpAll l₁) (h₂ : WbpAll l₂) :
    WbpAll (l₁ ++ l₂) := by
  intro seen
  rw [wbpAux_append, h₁ seen, h₂ (l₁.reverse ++ seen)]
  rfl

lemma wbpAll_cons (e : Effect) (l : List Effect) (he : isTermPub e = none)
    (hl : WbpAll l) : WbpAll (e :: l) := by
  intro seen
  simp only [wbpAux, he, Bool.true_and]
  exact hl (e :: seen)

lemma wbpAll_failTrace (job msg : String) : WbpAll (failTrace job msg) := by
  intro seen
  simp [failTrace, wbpAux, isTermPub, isTermWriteFor, update_job_status,
    publish_update, failedRec]

lemma wbpAll_cancelPair (job : String) :
    WbpAll [update_job_status job (cancelledRec job),
      publish_update job (.errorE "Cancelled" "Training cancelled by user")] := by
  intro seen
  simp [wbpAux, isTermPub, isTermWriteFor, update_job_status, publish_update,
    cancelledRec]

lemma wbpAll_completeTriple (cfg : RunCfg) (env : TaskEnv)
    (hist : List HistoryEntry) :
    WbpAll [Effect.saveModel (modelPath cfg.job_id),
      update_job_status cfg.job_id (finalResult cfg env hist),
      publish_update cfg.job_id
        (.completeE 100 (finalResult cfg env hist) "Training completed!")] := by
  intro seen
  simp [wbpAux, isTermPub, isTermWriteFor, update_job_status, publish_update,
    finalResult_status cfg env hist]

lemma wbpAll_pauseNotify (job : String) : WbpAll (pauseNotifyTrace job) :=
  wbpAll_cons _ _ rfl (wbpAll_cons _ _ rfl wbpAll_nil)

lemma wbpAll_resumeNotify (job : String) : WbpAll (resumeNotifyTrace job) :=
  wbpAll_cons _ _ rfl (wbpAll_cons _ _ rfl wbpAll_nil)

lemma handle_pause_trace_wbpAll (env : SigEnv) (job : String) (fuel : Nat)
    (s : SigState) : WbpAll (handle_pause env job fuel s).trace := by
  unfold handle_pause
  dsimp only
  split
  · exact wbpAll_nil
  · split
    · exact wbpAll_nil
    · split
      · exact wbpAll_pauseNotify job
      · exact wbpAll_pauseNotify job
      · exact wbpAll_append (wbpAll_pauseNotify job) (wbpAll_resumeNotify job)

lemma epochLoop_trace_wbpAll (cfg : RunCfg) (env : TaskEnv) (total : Nat) :
    ∀ (rem i : Nat) (hist : List HistoryEntry) (s : SigState),
      WbpAll (epochLoop cfg env total rem i hist s).trace
  | 0, _, _, _ => wbpAll_nil
  | rem + 1, i, hist, s => by
    unfold epochLoop
    dsimp only
    split
    · exact wbpAll_cancelPair cfg.job_id
    · have hp := handle_pause_trace_wbpAll env.sig cfg.job_id env.pauseFuel
        (checkCancel env.sig s).2
      split
      · rename_i tr heq
        rw [heq] at hp
        exact hp
      · rename_i tr s2 heq
        rw [heq] at hp
        exact hp
      · rename_i tr s2 heq
        rw [heq] at hp
        have ih := epochLoop_trace_wbpAll cfg env total rem (i + 1)
          (hist ++ [mkHistoryEntry i (if cfg.task_type = "classification"
            then clsMetrics env.m else regMetrics env.m)]) s2
        split
        · rename_i tr2 s3 hrec
          rw [hrec] at ih
          exact wbpAll_append (wbpAll_append hp
            (wbpAll_cons _ _ rfl (wbpAll_cons _ _ rfl wbpAll_nil))) ih
        · rename_i tr2 s3 hrec
          rw [hrec] at ih
          exact wbpAll_append (wbpAll_append hp
            (wbpAll_cons _ _ rfl (wbpAll_cons _ _ rfl wbpAll_nil))) ih
        · rename_i tr2 hrec
          rw [hrec] at ih
          exact wbpAll_append (wbpAll_append hp
            (wbpAll_cons _ _ rfl (wbpAll_cons _ _ rfl wbpAll_nil))) ih
        · rename_i h2 tr2 s3 hrec
          rw [hrec] at ih
          exact wbpAll_append (wbpAll_append hp
            (wbpAll_cons _ _ rfl (wbpAll_cons _ _ rfl wbpAll_nil))) ih

/-- C5: in every possible run of the Job Runner, every terminal event
published on the update channel (a `complete` or `error` frame) is preceded
in the effect trace by a store write of the corresponding terminal status
(`completed` for `complete`; `failed` or `cancelled` for `error`), so a
client that queries status right after receiving the terminal event never
sees a stale non-terminal status. -/
theorem c5_terminal_write_before_publish (cfg : RunCfg) (env : TaskEnv) :
    wbpCheck (train_model_task cfg env).2 = true := by
  have htr0 : WbpAll [update_job_status cfg.job_id
      { job_id := some cfg.job_id, status := some .running, progress := some 0,
        message := some "Training started" },
      publish_update cfg.job_id
        (.statusE .running (some 0) "Training started - Loading dataset...")] :=
    wbpAll_cons _ _ rfl (wbpAll_cons _ _ rfl wbpAll_nil)
  have htr1 := wbpAll_append htr0
    (wbpAll_cons (publish_update cfg.job_id
      (.progressE 10 none none none none "Dataset loaded")) [] rfl wbpAll_nil)
  have htr2 := wbpAll_append htr1
    (wbpAll_cons (publish_update cfg.job_id
        (.progressE 20 none none none none "Data split")) _ rfl
      (wbpAll_cons (publish_update cfg.job_id
        (.progressE 30 none none none none "Model initialized")) [] rfl wbpAll_nil))
  have hall : WbpAll (train_model_task cfg env).2 := by
    unfold train_model_task
    dsimp only
    split
    · exact wbpAll_append htr0 (wbpAll_failTrace _ _)
    · split
      · exact wbpAll_append htr0 (wbpAll_failTrace _ _)
      · split
        · exact wbpAll_append htr0 (wbpAll_failTrace _ _)
        · split
          · exact wbpAll_append htr1 (wbpAll_failTrace _ _)
          · split
            · exact wbpAll_append htr1 (wbpAll_failTrace _ _)
            · split
              · exact wbpAll_append htr2 (wbpAll_failTrace _ _)
              · have hp := handle_pause_trace_wbpAll env.sig cfg.job_id
                  env.pauseFuel (checkCancel env.sig ⟨0, 0⟩).2
                split
                · rename_i trP heq
                  rw [heq] at hp
                  exact wbpAll_append htr2 hp
                · rename_i trP s2 heq
                  rw [heq] at hp
                  exact wbpAll_append (wbpAll_append htr2 hp) (wbpAll_failTrace _ _)
                · rename_i trP s2 heq
                  rw [heq] at hp
                  split
                  · exact wbpAll_append (wbpAll_append htr2 hp) (wbpAll_failTrace _ _)
                  · split
                    · exact wbpAll_append (wbpAll_append htr2 hp) (wbpAll_failTrace _ _)
                    · have hl := epochLoop_trace_wbpAll cfg env
                        (runTotalEpochs cfg env).toNat (runTotalEpochs cfg env).toNat
                        0 [] (checkCancel env.sig s2).2
                      split
                      · rename_i trL s3 hrec
                        rw [hrec] at hl
                        exact wbpAll_append (wbpAll_append htr2 hp) hl
                      · rename_i trL s3 hrec
                        rw [hrec] at hl
                        exact wbpAll_append
                          (wbpAll_append (wbpAll_append htr2 hp) hl)
                          (wbpAll_failTrace _ _)
                      · rename_i trL hrec
                        rw [hrec] at hl
                        exact wbpAll_append (wbpAll_append htr2 hp) hl
                      · rename_i hist trL s3 hrec
                        rw [hrec] at hl
                        exact wbpAll_append
                          (wbpAll_append (wbpAll_append htr2 hp) hl)
                          (wbpAll_completeTriple cfg env hist)
  exact hall []

lemma pauseWait_connErr_resumes (env : SigEnv) :
    ∀ (k fuel : Nat) (s : SigState), k < fuel →
      (∀ j, j < k → env.pauseAt (s.pIdx + j) = .ok (some "true") ∧
        env.cancelAt (s.cIdx + j) = false) →
      env.pauseAt (s.pIdx + k) = .connErr →
      ∃ s', pauseWait env fuel s = .resumed s'
  | _, 0, _, hk, _, _ => absurd hk (by omega)
  | 0, fuel + 1, s, _, _, herr => by
    simp only [Nat.add_zero] at herr
    unfold pauseWait
    dsimp only
    rw [herr]
    exact ⟨_, rfl⟩
  | k + 1, fuel + 1, s, hk, hall, herr => by
    have h0 := hall 0 (by omega)
    simp only [Nat.add_zero] at h0
    unfold pauseWait
    dsimp only
    rw [h0.1]
    dsimp only
    rw [if_neg (show ¬(some "true" ≠ some "true") from by simp)]
    rw [if_neg (show ¬((checkCancel env ⟨s.cIdx, s.pIdx + 1⟩).1 = true) from by
      simp [checkCancel, h0.2])]
    exact pauseWait_connErr_resumes env k fuel ⟨s.cIdx + 1, s.pIdx + 1⟩ (by omega)
      (fun j hj => by
        constructor
        · have h := (hall (j + 1) (by omega)).1
          rw [show s.pIdx + 1 + j = s.pIdx + (j + 1) from by omega]
          exact h
        · have h := (hall (j + 1) (by omega)).2
          rw [show s.cIdx + 1 + j = s.cIdx + (j + 1) from by omega]
          exact h)
      (by
        rw [show s.pIdx + 1 + k = s.pIdx + (k + 1) from by omega]
        exact herr)

/-- C10: if the Job State Store becomes unreachable while `handle_pause` is
checking or waiting on the pause flag, the job does not pause (first
conjunct: a connection error on the initial flag read returns not-cancelled
with no effects) or resumes training (second conjunct: a connection error on
the k-th wait-loop poll, after reads that kept it paused and no cancel
signal, breaks the wait and returns not-cancelled with the resume
notification), so a store outage can never leave a job blocked paused. -/
theorem c10_outage_returns_not_cancelled (env : SigEnv) (job_id : String) :
    (∀ (fuel : Nat) (s : SigState), env.pauseAt s.pIdx = .connErr →
       handle_pause env job_id fuel s = .resumed [] ⟨s.cIdx, s.pIdx + 1⟩) ∧
    (∀ (fuel k : Nat) (s : SigState), k < fuel →
       env.pauseAt s.pIdx = .ok (some "true") →
       (∀ j, j < k → env.pauseAt (s.pIdx + 1 + j) = .ok (some "true") ∧
         env.cancelAt (s.cIdx + j) = false) →
       env.pauseAt (s.pIdx + 1 + k) = .connErr →
       ∃ s', handle_pause env job_id fuel s =
         .resumed (pauseNotifyTrace job_id ++ resumeNotifyTrace job_id) s') := by
  constructor
  · intro fuel s h
    unfold handle_pause
    dsimp only
    rw [h]
  · intro fuel k s hk hfirst hall herr
    unfold handle_pause
    dsimp only
    rw [hfirst]
    dsimp only
    rw [if_neg (by simp)]
    obtain ⟨s', hw⟩ := pauseWait_connErr_resumes env k fuel ⟨s.cIdx, s.pIdx + 1⟩ hk
      (fun j hj => ⟨(hall j hj).1, (hall j hj).2⟩) herr
    rw [hw]
    exact ⟨s', rfl⟩

/-- Witness for `c10_outage_returns_not_cancelled` at concrete flag
streams: an outage on the first read, and an outage on the second wait-loop
poll after the flag was seen set. -/
theorem c10_outage_returns_not_cancelled_witness :
    (handle_pause c10SigA "j10" 3 ⟨0, 0⟩ = .resumed [] ⟨0, 1⟩) ∧
    (∃ s', handle_pause c10Sig "j10" 3 ⟨0, 0⟩ =
      .resumed (pauseNotifyTrace "j10" ++ resumeNotifyTrace "j10") s') := by
  constructor
  · exact (c10_outage_returns_not_cancelled c10SigA "j10").1 3 ⟨0, 0⟩ rfl
  · exact (c10_outage_returns_not_cancelled c10Sig "j10").2 3 1 ⟨0, 0⟩ (by omega)
      rfl
      (fun j hj => by
        have hj0 : j = 0 := by omega
        subst hj0
        exact ⟨rfl, rfl⟩)
      rfl

end MLPlatform
